import Mathlib

/-!
Shallow embedding of `src/main.rs` of the webrender demo.

The program is a window + renderer harness: a `Notifier` adapter that forwards
render notifications into the platform event queue, a scene-building function
`render` that pushes three colored rectangles into a display-list builder, and
a driver `main` that initializes one document and then runs an event loop which
re-renders on every iteration.

Modelling conventions:
- `f32` scene coordinates are embedded as exact rationals; the fractional
  constants 0.5, 0.25, 0.75 of the source are the rationals 1/2, 1/4, 3/4.
- The winit event-loop proxy is a state record (alive flag + posted wake
  events); `send_event` returns the new state together with the `Result`
  that the Rust call returns, which the caller may discard.
- `Option.unwrap` on a missing value is a panic, modelled by the whole
  iteration returning `none`.
- Conditional compilation (`cfg(not(target_os = "android"))`) is a Boolean
  parameter `target_os_android` on the notifier operations.
- Effects on the external renderer and GL context are recorded as an `Action`
  trace, so that theorems can count and inspect the calls the driver makes.
-/

namespace WebrenderDemo

/-- `DeviceIntSize`: physical device size in integer pixels (i32 fields). -/
structure DeviceIntSize where
  width : Int
  height : Int
deriving DecidableEq

/-- `PipelineId(u32, u32)`: the identifier of a rendering pipeline. -/
structure PipelineId where
  namespace_id : Nat
  id : Nat
deriving DecidableEq

/-- Opaque handle returned by `add_document`. -/
abbrev DocumentId := Nat

/-- `ColorF`: an RGBA color with float components, embedded as rationals. -/
structure ColorF where
  r : ℚ
  g : ℚ
  b : ℚ
  a : ℚ
deriving DecidableEq

/-- `ColorF::new(r, g, b, a)`. -/
def ColorF.new (r g b a : ℚ) : ColorF := ⟨r, g, b, a⟩

/-- `euclid::Point2D` with f32 coordinates, embedded as rationals. -/
structure Point2D where
  x : ℚ
  y : ℚ
deriving DecidableEq

/-- `Point2D::zero()`. -/
def Point2D.zero : Point2D := ⟨0, 0⟩

/-- `LayoutRect` (a euclid box): min and max corner points. -/
structure LayoutRect where
  min : Point2D
  max : Point2D
deriving DecidableEq

/-- `LayoutRect::new(min, max)`. -/
def LayoutRect.new (mn mx : Point2D) : LayoutRect := ⟨mn, mx⟩

/-- `SpaceAndClipInfo`: in this program always the root scroll/clip node of a
pipeline, via `SpaceAndClipInfo::root_scroll(pipeline_id)`. -/
inductive SpaceAndClipInfo
  | root_scroll (pipeline_id : PipelineId)
deriving DecidableEq

/-- The pipeline a `SpaceAndClipInfo` refers to. -/
def SpaceAndClipInfo.pipeline : SpaceAndClipInfo → PipelineId
  | root_scroll pipeline_id => pipeline_id

/-- `CommonItemProperties`: the clip rectangle and spatial attachment of an
item; `CommonItemProperties::new(clip_rect, space_and_clip)`. -/
structure CommonItemProperties where
  clip_rect : LayoutRect
  space_and_clip : SpaceAndClipInfo
deriving DecidableEq

/-- `CommonItemProperties::new`. -/
def CommonItemProperties.new (clip_rect : LayoutRect)
    (space_and_clip : SpaceAndClipInfo) : CommonItemProperties :=
  ⟨clip_rect, space_and_clip⟩

/-- One rectangle item of the display list, as recorded by `push_rect`. -/
structure RectItem where
  common : CommonItemProperties
  bounds : LayoutRect
  color : ColorF
deriving DecidableEq

/-- `DisplayListBuilder`: the pipeline it builds for and the items pushed so
far, in order. -/
structure DisplayListBuilder where
  pipeline_id : PipelineId
  items : List RectItem
deriving DecidableEq

/-- `DisplayListBuilder::new(pipeline_id)`. -/
def DisplayListBuilder.new (pipeline_id : PipelineId) : DisplayListBuilder :=
  ⟨pipeline_id, []⟩

/-- `builder.begin()`: start recording a fresh display list. -/
def DisplayListBuilder.begin (builder : DisplayListBuilder) : DisplayListBuilder :=
  { builder with items := [] }

/-- `builder.push_rect(common, bounds, color)`: append one rectangle item. -/
def DisplayListBuilder.push_rect (builder : DisplayListBuilder)
    (common : CommonItemProperties) (bounds : LayoutRect) (color : ColorF) :
    DisplayListBuilder :=
  { builder with items := builder.items ++ [⟨common, bounds, color⟩] }

/-- `builder.end()`: finish recording and hand back the built display list
(`end` is a Lean keyword, hence the name). -/
def DisplayListBuilder.end_build (builder : DisplayListBuilder) : List RectItem :=
  builder.items

/-- `Epoch(u32)`: the display-list version counter. -/
abbrev Epoch := Nat

/-- `RenderReasons` bitflags; `RenderReasons::empty()` is 0. -/
abbrev RenderReasons := Nat

/-- `RenderReasons::empty()`. -/
def RenderReasons.empty : RenderReasons := 0

/-- Layout size in f32 layout pixels, embedded as rationals. -/
structure LayoutSize where
  width : ℚ
  height : ℚ
deriving DecidableEq

/-- `Transaction`: a write-only batch of scene/frame commands. Fields record
the commands staged so far; a fresh transaction has none. -/
structure Transaction where
  display_list : Option (Epoch × Option ColorF × LayoutSize × List RectItem)
  root_pipeline : Option PipelineId
  frame_request : Option (Nat × RenderReasons)
deriving DecidableEq

/-- `Transaction::new()`: the empty transaction. -/
def Transaction.new : Transaction := ⟨none, none, none⟩

/-- `txn.set_display_list(epoch, background, layout_size, dl)`. -/
def Transaction.set_display_list (txn : Transaction) (epoch : Epoch)
    (background : Option ColorF) (layout_size : LayoutSize)
    (dl : List RectItem) : Transaction :=
  { txn with display_list := some (epoch, background, layout_size, dl) }

/-- `txn.set_root_pipeline(pipeline_id)`. -/
def Transaction.set_root_pipeline (txn : Transaction) (pipeline_id : PipelineId) :
    Transaction :=
  { txn with root_pipeline := some pipeline_id }

/-- `txn.generate_frame(id, reasons)`. -/
def Transaction.generate_frame (txn : Transaction) (id : Nat)
    (reasons : RenderReasons) : Transaction :=
  { txn with frame_request := some (id, reasons) }

/-- `RenderApi`: only its document-allocation state matters here. -/
structure RenderApi where
  next_document_id : Nat
deriving DecidableEq

/-- `api.add_document(size)`: allocate a fresh document id. -/
def RenderApi.add_document (api : RenderApi) (_size : DeviceIntSize) :
    DocumentId × RenderApi :=
  (api.next_document_id, ⟨api.next_document_id + 1⟩)

/-! ## The Notifier -/

/-- The error `send_event` reports when the event loop has already exited. -/
inductive EventLoopClosed
  | closed
deriving DecidableEq

/-- State of the winit `EventLoopProxy`: whether the loop is still running and
the wake events posted into the platform queue so far. -/
structure EventLoopProxy where
  alive : Bool
  queue : List Unit
deriving DecidableEq

/-- `events_proxy.send_event(())`: posts the wake event and returns `Ok(())`
when the loop is alive, otherwise leaves the queue unchanged and returns
`Err(EventLoopClosed)`. -/
def EventLoopProxy.send_event (proxy : EventLoopProxy) (_event : Unit) :
    EventLoopProxy × Except EventLoopClosed Unit :=
  if proxy.alive then
    ({ proxy with queue := proxy.queue ++ [()] }, Except.ok ())
  else
    (proxy, Except.error EventLoopClosed.closed)

/-- `Notifier`: holds a clone of the event-loop proxy. -/
structure Notifier where
  events_proxy : EventLoopProxy
deriving DecidableEq

/-- `Notifier::new(events_proxy)`. -/
def Notifier.new (events_proxy : EventLoopProxy) : Notifier := ⟨events_proxy⟩

/-- `Notifier::wake_up(composite_needed)`: on non-Android targets it posts one
wake event, discarding the `Result` (`let _ = ...`); on Android the body is
compiled out entirely. Returns the updated proxy state. -/
def Notifier.wake_up (target_os_android : Bool) (self : Notifier)
    (_composite_needed : Bool) : Notifier :=
  if target_os_android then self
  else ⟨(self.events_proxy.send_event ()).1⟩

/-- `Notifier::new_frame_ready(document_id, scrolled, composite_needed)`:
forwards to `wake_up`, ignoring the document id and the scrolled flag. -/
def Notifier.new_frame_ready (target_os_android : Bool) (self : Notifier)
    (_document_id : DocumentId) (_scrolled : Bool) (composite_needed : Bool) :
    Notifier :=
  Notifier.wake_up target_os_android self composite_needed

/-! ## The Scene Builder (`fn render`) -/

/-- `fn render(api, builder, txn, device_size, pipeline_id, document_id)`:
pushes the three rectangles (red, green, blue) onto the display-list builder.
The api, txn and document id parameters are unused by the source (they carry a
leading underscore there). -/
def render (_api : RenderApi) (builder : DisplayListBuilder)
    (_txn : Transaction) (device_size : DeviceIntSize)
    (pipeline_id : PipelineId) (_document_id : DocumentId) :
    DisplayListBuilder :=
  let width : ℚ := (device_size.width : ℚ)
  let height : ℚ := (device_size.height : ℚ)
  let bounds := LayoutRect.new Point2D.zero
    (Point2D.mk (width * (1 / 2)) (height * (1 / 2)))
  let builder := builder.push_rect
    (CommonItemProperties.new bounds (SpaceAndClipInfo.root_scroll pipeline_id))
    bounds (ColorF.new 1 0 0 1)
  let bounds := LayoutRect.new
    (Point2D.mk (width * (1 / 4)) (height * (1 / 4)))
    (Point2D.mk (width * (3 / 4)) (height * (3 / 4)))
  let builder := builder.push_rect
    (CommonItemProperties.new bounds (SpaceAndClipInfo.root_scroll pipeline_id))
    bounds (ColorF.new 0 1 0 1)
  let bounds := LayoutRect.new
    (Point2D.mk (width * (1 / 2)) (height * (1 / 2)))
    (Point2D.mk width height)
  builder.push_rect
    (CommonItemProperties.new bounds (SpaceAndClipInfo.root_scroll pipeline_id))
    bounds (ColorF.new 0 0 1 1)

/-- The rectangle item `push_rect` records for bounds `b`, the root scroll
node of `pipeline_id`, and color `c` (clip rect equals the bounds). -/
def rectItemOf (b : LayoutRect) (pipeline_id : PipelineId) (c : ColorF) :
    RectItem :=
  ⟨CommonItemProperties.new b (SpaceAndClipInfo.root_scroll pipeline_id), b, c⟩

/-! ## Events and the driver loop -/

/-- `VirtualKeyCode`: the escape key, or any other key (by scan code). -/
inductive VirtualKeyCode
  | escape
  | otherKey (code : Nat)
deriving DecidableEq

/-- The payload of a `KeyboardInput` window event; the virtual keycode is an
`Option` in winit. -/
structure KeyboardInput where
  virtual_keycode : Option VirtualKeyCode
deriving DecidableEq

/-- The window events the loop matches on; every branch the source leaves to
the wildcard is `otherWindowEvent`. -/
inductive WindowEvent
  | closeRequested
  | keyboardInput (input : KeyboardInput)
  | otherWindowEvent (tag : Nat)
deriving DecidableEq

/-- The top-level winit events; `userEvent` is the wake event posted by the
notifier, and `otherEvent` covers every branch left to the wildcard. -/
inductive Event
  | windowEvent (event : WindowEvent)
  | resumed
  | userEvent
  | otherEvent (tag : Nat)
deriving DecidableEq

/-- `ControlFlow`: the loop keeps waiting, or `set_exit()` has been called. -/
inductive ControlFlow
  | wait
  | exit
deriving DecidableEq

/-- Observable window state touched by the loop: visibility and focus. -/
structure WindowState where
  visible : Bool
  focused : Bool
deriving DecidableEq

/-- The window is created with `with_visible(false)` and without focus. -/
def initialWindow : WindowState := ⟨false, false⟩

/-- Calls the loop body makes into the renderer / GL context / render api,
recorded as a trace. -/
inductive Action
  | addDocument (size : DeviceIntSize)
  | sendTransaction (document_id : DocumentId) (txn : Transaction)
  | rendererUpdate
  | render (size : DeviceIntSize)
  | flushPipelineInfo
  | swapBuffers
  | rendererDeinit
deriving DecidableEq

/-- The event-match of the loop closure (lines 119 to 134): close requests and
escape presses set exit; resume shows and focuses the window; everything else
does nothing. `input.virtual_keycode.unwrap()` panics when the keycode is
absent, modelled by `none`. -/
def handleEvent (window : WindowState) (global_event : Event) :
    Option (WindowState × ControlFlow) :=
  match global_event with
  | Event.windowEvent e =>
    match e with
    | WindowEvent.closeRequested => some (window, ControlFlow.exit)
    | WindowEvent.keyboardInput input =>
      match input.virtual_keycode with
      | none => none
      | some key =>
        if VirtualKeyCode.escape = key then some (window, ControlFlow.exit)
        else some (window, ControlFlow.wait)
    | WindowEvent.otherWindowEvent _ => some (window, ControlFlow.wait)
  | Event.resumed => some (⟨true, true⟩, ControlFlow.wait)
  | Event.userEvent => some (window, ControlFlow.wait)
  | Event.otherEvent _ => some (window, ControlFlow.wait)

/-- The unconditional tail of every loop iteration (lines 136 to 140): send a
fresh empty transaction, update the renderer, render at the startup device
size, discard the pipeline info, swap buffers. -/
def iterationActions (device_size : DeviceIntSize) (document_id : DocumentId) :
    List Action :=
  [ Action.sendTransaction document_id Transaction.new,
    Action.rendererUpdate,
    Action.render device_size,
    Action.flushPipelineInfo,
    Action.swapBuffers ]

/-- One full iteration of the loop closure on one event: the event match, then
the unconditional render tail. `none` is a panic aborting the process. -/
def loopIteration (device_size : DeviceIntSize) (document_id : DocumentId)
    (window : WindowState) (global_event : Event) :
    Option (WindowState × ControlFlow × List Action) :=
  match handleEvent window global_event with
  | none => none
  | some (window2, control_flow) =>
    some (window2, control_flow, iterationActions device_size document_id)

/-- `events_loop.run_return`: feed a list of incoming events to the closure;
stop after the iteration that sets exit. The Boolean reports whether the loop
terminated (reached exit) within the given events. -/
def runLoop (device_size : DeviceIntSize) (document_id : DocumentId) :
    WindowState → List Event → Option (WindowState × List Action × Bool)
  | window, [] => some (window, [], false)
  | window, e :: rest =>
    match loopIteration device_size document_id window e with
    | none => none
    | some (window2, control_flow, acts) =>
      match control_flow with
      | ControlFlow.exit => some (window2, acts, true)
      | ControlFlow.wait =>
        match runLoop device_size document_id window2 rest with
        | none => none
        | some (window3, acts2, terminated) =>
          some (window3, acts ++ acts2, terminated)

/-- The startup sequence of `main` (lines 82 to 112): fixed pipeline id (0,0),
fresh builder and transaction, epoch 0, one document, the scene built by
`render`, and the initial transaction carrying the display list, the root
pipeline and a generate-frame request. Returns the document id and that
transaction. -/
def mainStartup (device_size : DeviceIntSize) (device_pixel_ratio : ℚ) :
    DocumentId × Transaction :=
  let pipeline_id := PipelineId.mk 0 0
  let builder := DisplayListBuilder.new pipeline_id
  let txn := Transaction.new
  let epoch : Epoch := 0
  let builder := builder.begin
  let api : RenderApi := ⟨0⟩
  let (document_id, api) := api.add_document device_size
  let builder := render api builder txn device_size pipeline_id document_id
  let layout_size : LayoutSize :=
    ⟨(device_size.width : ℚ) / device_pixel_ratio,
     (device_size.height : ℚ) / device_pixel_ratio⟩
  let txn := txn.set_display_list epoch (some (ColorF.new 1 0 0 1))
    layout_size builder.end_build
  let txn := txn.set_root_pipeline pipeline_id
  let txn := txn.generate_frame 0 RenderReasons.empty
  (document_id, txn)

/-- The actions `main` performs before entering the loop. -/
def startupActions (device_size : DeviceIntSize) (device_pixel_ratio : ℚ) :
    List Action :=
  [ Action.addDocument device_size,
    Action.sendTransaction (mainStartup device_size device_pixel_ratio).1
      (mainStartup device_size device_pixel_ratio).2 ]

/-- `fn main`, as a trace of renderer-facing actions: startup, then the event
loop, then `renderer.deinit()` once the loop has returned. `none` is a panic.
The device size and scale factor are read from the window at startup and are
inputs here; the event stream is the sequence of platform events delivered. -/
def main (device_size : DeviceIntSize) (device_pixel_ratio : ℚ)
    (events : List Event) : Option (List Action) :=
  let document_id := (mainStartup device_size device_pixel_ratio).1
  match runLoop device_size document_id initialWindow events with
  | none => none
  | some (_, acts, true) =>
    some (startupActions device_size device_pixel_ratio ++ acts ++
      [Action.rendererDeinit])
  | some (_, acts, false) =>
    some (startupActions device_size device_pixel_ratio ++ acts)

/-! ## Trace observations, for stating the process-wide invariants -/

/-- The transaction carried by a send-transaction action, if any. -/
def Action.sentTxn : Action → Option Transaction
  | Action.sendTransaction _ txn => some txn
  | _ => none

/-- Whether the action creates a rendering document. -/
def Action.isAddDocument : Action → Bool
  | Action.addDocument _ => true
  | _ => false

/-- The document ids an action addresses. -/
def Action.documents : Action → List DocumentId
  | Action.sendTransaction document_id _ => [document_id]
  | _ => []

/-- Every pipeline id a transaction mentions: its root pipeline and the
spatial attachment of every display-list item it sets. -/
def Transaction.pipelines (txn : Transaction) : List PipelineId :=
  (match txn.root_pipeline with
   | none => []
   | some pipeline_id => [pipeline_id]) ++
  (match txn.display_list with
   | none => []
   | some (_, _, _, items) =>
     items.map fun item => item.common.space_and_clip.pipeline)

/-- Every pipeline id an action mentions. -/
def Action.pipelines : Action → List PipelineId
  | Action.sendTransaction _ txn => txn.pipelines
  | _ => []

/-- The epoch of the display list a transaction sets, if any. -/
def Transaction.displayListEpoch (txn : Transaction) : Option Epoch :=
  match txn.display_list with
  | none => none
  | some (epoch, _, _, _) => some epoch

/-! ## Theorems -/

/-- A list filtered by a predicate that every member falsifies is empty. -/
theorem filter_eq_nil_of_all {α : Type} (p : α → Bool) :
    ∀ (l : List α), (∀ a ∈ l, p a = false) → l.filter p = [] := by
  intro l hl
  induction l with
  | nil => rfl
  | cons x xs ih =>
    rw [List.filter_cons, hl x (List.mem_cons_self x xs)]
    exact ih fun a ha => hl a (List.mem_cons_of_mem x ha)

/-- The action list of any successful loop iteration is exactly the
unconditional render tail. -/
theorem loopIteration_actions_eq (device_size : DeviceIntSize)
    (document_id : DocumentId) (window : WindowState) (global_event : Event)
    (r : WindowState × ControlFlow × List Action)
    (h : loopIteration device_size document_id window global_event = some r) :
    r.2.2 = iterationActions device_size document_id := by
  unfold loopIteration at h
  cases hh : handleEvent window global_event with
  | none => rw [hh] at h; cases h
  | some p =>
    obtain ⟨w2, cf⟩ := p
    rw [hh] at h
    cases h
    rfl

/-- Every action the event loop emits is one of the five actions of the
unconditional render tail. -/
theorem runLoop_actions_subset (device_size : DeviceIntSize)
    (document_id : DocumentId) :
    ∀ (events : List Event) (window w2 : WindowState) (acts : List Action)
      (terminated : Bool),
      runLoop device_size document_id window events =
        some (w2, acts, terminated) →
      ∀ a ∈ acts, a ∈ iterationActions device_size document_id := by
  intro events
  induction events with
  | nil =>
    intro window w2 acts terminated h a ha
    simp [runLoop] at h
    obtain ⟨-, h2, -⟩ := h
    subst h2
    simp at ha
  | cons e rest ih =>
    intro window w2 acts terminated h a ha
    simp only [runLoop] at h
    cases hit : loopIteration device_size document_id window e with
    | none => rw [hit] at h; cases h
    | some r =>
      obtain ⟨w3, cf, acts1⟩ := r
      have hacts1 : acts1 = iterationActions device_size document_id :=
        loopIteration_actions_eq device_size document_id window e _ hit
      rw [hit] at h
      cases cf with
      | exit =>
        simp only [Option.some.injEq, Prod.mk.injEq] at h
        obtain ⟨-, h2, -⟩ := h
        subst h2
        rw [hacts1] at ha
        exact ha
      | wait =>
        dsimp only at h
        cases hrl : runLoop device_size document_id w3 rest with
        | none => rw [hrl] at h; cases h
        | some r2 =>
          obtain ⟨w4, acts2, b2⟩ := r2
          rw [hrl] at h
          simp only [Option.some.injEq, Prod.mk.injEq] at h
          obtain ⟨-, h2, -⟩ := h
          subst h2
          rcases List.mem_append.mp ha with ha1 | ha2
          · rw [hacts1] at ha1
            exact ha1
          · exact ih w3 w4 acts2 b2 hrl a ha2

/-- The observations needed on the five actions of the render tail. -/
theorem iterationActions_props (device_size : DeviceIntSize)
    (document_id : DocumentId) (a : Action)
    (ha : a ∈ iterationActions device_size document_id) :
    Action.isAddDocument a = false ∧
    (Action.sentTxn a = none ∨ Action.sentTxn a = some Transaction.new) ∧
    Action.pipelines a = [] ∧
    (∀ d ∈ Action.documents a, d = document_id) := by
  simp only [iterationActions, List.mem_cons, List.not_mem_nil,
    or_false] at ha
  rcases ha with h | h | h | h | h <;> subst h <;>
    simp [Action.isAddDocument, Action.sentTxn, Action.pipelines,
      Action.documents, Transaction.pipelines, Transaction.new]

/-- C1: for every non-negative device size and every pipeline id, the scene
builder appends exactly three rectangle items, in order: rect A from (0,0) to
(0.5w, 0.5h) in opaque red, rect B from (0.25w, 0.25h) to (0.75w, 0.75h) in
opaque green, rect C from (0.5w, 0.5h) to (w, h) in opaque blue, each attached
to the root scroll/clip node of the given pipeline. -/
theorem render_pushes_three_rects (api : RenderApi)
    (builder : DisplayListBuilder) (txn : Transaction)
    (device_size : DeviceIntSize) (pipeline_id : PipelineId)
    (document_id : DocumentId)
    (hw : 0 ≤ device_size.width) (hh : 0 ≤ device_size.height) :
    (render api builder txn device_size pipeline_id document_id).items =
      builder.items ++
        [ rectItemOf
            (LayoutRect.new (Point2D.mk 0 0)
              (Point2D.mk ((device_size.width : ℚ) * (1 / 2))
                ((device_size.height : ℚ) * (1 / 2))))
            pipeline_id (ColorF.new 1 0 0 1),
          rectItemOf
            (LayoutRect.new
              (Point2D.mk ((device_size.width : ℚ) * (1 / 4))
                ((device_size.height : ℚ) * (1 / 4)))
              (Point2D.mk ((device_size.width : ℚ) * (3 / 4))
                ((device_size.height : ℚ) * (3 / 4))))
            pipeline_id (ColorF.new 0 1 0 1),
          rectItemOf
            (LayoutRect.new
              (Point2D.mk ((device_size.width : ℚ) * (1 / 2))
                ((device_size.height : ℚ) * (1 / 2)))
              (Point2D.mk (device_size.width : ℚ) (device_size.height : ℚ)))
            pipeline_id (ColorF.new 0 0 1 1) ] := by
  simp [render, DisplayListBuilder.push_rect, rectItemOf, Point2D.zero,
    LayoutRect.new, CommonItemProperties.new, List.append_assoc]

/-- Witness for C1 at the spec example 800 by 600: rect A is (0,0) to
(400,300), rect B is (200,150) to (600,450), rect C is (400,300) to
(800,600). -/
theorem render_pushes_three_rects_witness :
    (render ⟨0⟩ (DisplayListBuilder.new (PipelineId.mk 0 0)) Transaction.new
        (DeviceIntSize.mk 800 600) (PipelineId.mk 0 0) 0).items =
      [] ++
        [ rectItemOf (LayoutRect.new (Point2D.mk 0 0) (Point2D.mk 400 300))
            (PipelineId.mk 0 0) (ColorF.new 1 0 0 1),
          rectItemOf (LayoutRect.new (Point2D.mk 200 150) (Point2D.mk 600 450))
            (PipelineId.mk 0 0) (ColorF.new 0 1 0 1),
          rectItemOf (LayoutRect.new (Point2D.mk 400 300) (Point2D.mk 800 600))
            (PipelineId.mk 0 0) (ColorF.new 0 0 1 1) ] := by
  have h := render_pushes_three_rects ⟨0⟩
    (DisplayListBuilder.new (PipelineId.mk 0 0)) Transaction.new
    (DeviceIntSize.mk 800 600) (PipelineId.mk 0 0) 0
    (by decide) (by decide)
  norm_num [DisplayListBuilder.new] at h
  exact h

/-- C2: on the non-Android build, `new_frame_ready` is definitionally the same
operation as `wake_up` with the composite-needed flag, it does not depend on
the document id or the scrolled flag, and while the event loop is alive it
posts exactly one wake signal into the platform queue. -/
theorem new_frame_ready_forwards_wake_up (self : Notifier)
    (document_id document_id2 : DocumentId)
    (scrolled scrolled2 composite_needed : Bool)
    (halive : self.events_proxy.alive = true) :
    Notifier.new_frame_ready false self document_id scrolled composite_needed =
      Notifier.wake_up false self composite_needed ∧
    Notifier.new_frame_ready false self document_id scrolled composite_needed =
      Notifier.new_frame_ready false self document_id2 scrolled2
        composite_needed ∧
    (Notifier.new_frame_ready false self document_id scrolled
        composite_needed).events_proxy.queue =
      self.events_proxy.queue ++ [()] := by
  refine ⟨rfl, rfl, ?_⟩
  simp [Notifier.new_frame_ready, Notifier.wake_up, EventLoopProxy.send_event,
    halive]

/-- Witness for C2 on an alive proxy with an empty queue. -/
theorem new_frame_ready_forwards_wake_up_witness :
    Notifier.new_frame_ready false ⟨⟨true, []⟩⟩ 0 true false =
      Notifier.wake_up false ⟨⟨true, []⟩⟩ false ∧
    Notifier.new_frame_ready false ⟨⟨true, []⟩⟩ 0 true false =
      Notifier.new_frame_ready false ⟨⟨true, []⟩⟩ 7 false false ∧
    (Notifier.new_frame_ready false ⟨⟨true, []⟩⟩ 0 true
        false).events_proxy.queue = [] ++ [()] :=
  new_frame_ready_forwards_wake_up ⟨⟨true, []⟩⟩ 0 7 true false false rfl

/-- C7: the scene builder is pure and deterministic. Its output does not
depend on the unused api, transaction and document-id parameters, and on equal
(builder, size, pipeline) inputs the full outputs coincide; moreover the items
it appends depend only on the size and the pipeline id, not on the builder
contents. -/
theorem render_pure_deterministic (api1 api2 : RenderApi)
    (builder : DisplayListBuilder) (txn1 txn2 : Transaction)
    (device_size : DeviceIntSize) (pipeline_id : PipelineId)
    (document_id1 document_id2 : DocumentId) :
    render api1 builder txn1 device_size pipeline_id document_id1 =
      render api2 builder txn2 device_size pipeline_id document_id2 ∧
    (render api1 builder txn1 device_size pipeline_id document_id1).items =
      builder.items ++
        (render api1 (DisplayListBuilder.new pipeline_id) txn1 device_size
          pipeline_id document_id1).items := by
  refine ⟨rfl, ?_⟩
  simp [render, DisplayListBuilder.push_rect, DisplayListBuilder.new]

/-- C8: on the degenerate zero device size the scene builder still appends
exactly three rectangle items, each with every corner coordinate equal to 0
(zero area), and no failure branch exists: the function is total. -/
theorem render_zero_size_degenerate (api : RenderApi)
    (builder : DisplayListBuilder) (txn : Transaction)
    (pipeline_id : PipelineId) (document_id : DocumentId) :
    (render api builder txn (DeviceIntSize.mk 0 0) pipeline_id
        document_id).items =
      builder.items ++
        [ rectItemOf (LayoutRect.new (Point2D.mk 0 0) (Point2D.mk 0 0))
            pipeline_id (ColorF.new 1 0 0 1),
          rectItemOf (LayoutRect.new (Point2D.mk 0 0) (Point2D.mk 0 0))
            pipeline_id (ColorF.new 0 1 0 1),
          rectItemOf (LayoutRect.new (Point2D.mk 0 0) (Point2D.mk 0 0))
            pipeline_id (ColorF.new 0 0 1 1) ] ∧
    ∀ item ∈ (render api builder txn (DeviceIntSize.mk 0 0) pipeline_id
        document_id).items.drop builder.items.length,
      (item.bounds.max.x - item.bounds.min.x) *
        (item.bounds.max.y - item.bounds.min.y) = 0 := by
  constructor
  · simp [render, DisplayListBuilder.push_rect, rectItemOf, Point2D.zero,
      LayoutRect.new, CommonItemProperties.new, List.append_assoc]
  · intro item hitem
    simp [render, DisplayListBuilder.push_rect, List.append_assoc,
      List.drop_left] at hitem
    rcases hitem with h | h | h <;> subst h <;>
      simp [LayoutRect.new, Point2D.zero]

/-- C9: the notifier operations never raise or propagate an error: `wake_up`
always returns the first component of `send_event`, discarding the `Result`;
when the loop has already exited the post fails with an error that is
silently swallowed — the proxy state is unchanged and the caller observes
nothing. -/
theorem notifier_swallows_send_errors (self : Notifier)
    (document_id : DocumentId) (scrolled composite_needed : Bool)
    (hdead : self.events_proxy.alive = false) :
    Notifier.wake_up false self composite_needed =
      ⟨(self.events_proxy.send_event ()).1⟩ ∧
    (self.events_proxy.send_event ()).2 =
      Except.error EventLoopClosed.closed ∧
    Notifier.wake_up false self composite_needed = self ∧
    Notifier.new_frame_ready false self document_id scrolled
      composite_needed = self := by
  refine ⟨rfl, ?_, ?_, ?_⟩ <;>
    simp [Notifier.wake_up, Notifier.new_frame_ready,
      EventLoopProxy.send_event, hdead]

/-- Witness for C9 on a dead proxy. -/
theorem notifier_swallows_send_errors_witness :
    Notifier.wake_up false ⟨⟨false, []⟩⟩ true =
      ⟨((⟨false, []⟩ : EventLoopProxy).send_event ()).1⟩ ∧
    ((⟨false, []⟩ : EventLoopProxy).send_event ()).2 =
      Except.error EventLoopClosed.closed ∧
    Notifier.wake_up false ⟨⟨false, []⟩⟩ true = ⟨⟨false, []⟩⟩ ∧
    Notifier.new_frame_ready false ⟨⟨false, []⟩⟩ 3 false true =
      ⟨⟨false, []⟩⟩ :=
  notifier_swallows_send_errors ⟨⟨false, []⟩⟩ 3 false true rfl

/-- C10: on the Android target `wake_up` is compiled to a no-op, so no wake
signal is ever posted, and `new_frame_ready` is likewise a no-op there. -/
theorem android_wake_up_noop (self : Notifier) (document_id : DocumentId)
    (scrolled composite_needed : Bool) :
    Notifier.wake_up true self composite_needed = self ∧
    Notifier.new_frame_ready true self document_id scrolled
      composite_needed = self ∧
    (Notifier.new_frame_ready true self document_id scrolled
        composite_needed).events_proxy.queue = self.events_proxy.queue :=
  ⟨rfl, rfl, rfl⟩

/-- C3 counterexample: the claim quantifies over any event, but a keyboard
input that carries no virtual keycode hits `Option::unwrap` and panics, so
that iteration performs no transaction submission, no render and no buffer
swap at all. -/
theorem loopIteration_keycode_none_panics :
    loopIteration (DeviceIntSize.mk 800 600) 0 initialWindow
      (Event.windowEvent (WindowEvent.keyboardInput ⟨none⟩)) = none := by
  decide

/-- C3 amended: every iteration whose event is not a keyboard input lacking a
virtual keycode — whichever branch fired — submits a freshly created empty
transaction to the one document, then updates the renderer, renders at the
startup device size, discards the returned pipeline info, and swaps the
buffers, in that order. -/
theorem loopIteration_unconditional_render (device_size : DeviceIntSize)
    (document_id : DocumentId) (window : WindowState) (global_event : Event)
    (hkey : ∀ input, global_event =
      Event.windowEvent (WindowEvent.keyboardInput input) →
      input.virtual_keycode ≠ none) :
    ∃ window2 control_flow,
      loopIteration device_size document_id window global_event =
        some (window2, control_flow,
          [ Action.sendTransaction document_id Transaction.new,
            Action.rendererUpdate,
            Action.render device_size,
            Action.flushPipelineInfo,
            Action.swapBuffers ]) := by
  cases global_event with
  | windowEvent e =>
    cases e with
    | closeRequested =>
      exact ⟨window, ControlFlow.exit, rfl⟩
    | keyboardInput input =>
      cases hvk : input.virtual_keycode with
      | none => exact absurd hvk (hkey input rfl)
      | some key =>
        by_cases hesc : VirtualKeyCode.escape = key
        · exact ⟨window, ControlFlow.exit, by
            simp [loopIteration, handleEvent, hvk, hesc, iterationActions]⟩
        · exact ⟨window, ControlFlow.wait, by
            simp [loopIteration, handleEvent, hvk, hesc, iterationActions]⟩
    | otherWindowEvent tag =>
      exact ⟨window, ControlFlow.wait, rfl⟩
  | resumed => exact ⟨⟨true, true⟩, ControlFlow.wait, rfl⟩
  | userEvent => exact ⟨window, ControlFlow.wait, rfl⟩
  | otherEvent tag => exact ⟨window, ControlFlow.wait, rfl⟩

/-- Witness for the amended C3 at a resume event. -/
theorem loopIteration_unconditional_render_witness :
    ∃ window2 control_flow,
      loopIteration (DeviceIntSize.mk 800 600) 0 initialWindow Event.resumed =
        some (window2, control_flow,
          [ Action.sendTransaction 0 Transaction.new,
            Action.rendererUpdate,
            Action.render (DeviceIntSize.mk 800 600),
            Action.flushPipelineInfo,
            Action.swapBuffers ]) :=
  loopIteration_unconditional_render (DeviceIntSize.mk 800 600) 0
    initialWindow Event.resumed (fun input h => by cases h)

/-- C4: a close-request event, or a keyboard event whose virtual keycode is
escape, makes that iteration set the control flow to exit, so the loop
terminates right there (remaining events are never processed); and the full
driver then ends its trace with `renderer.deinit()`. -/
theorem close_or_escape_terminates (device_size : DeviceIntSize)
    (document_id : DocumentId) (window : WindowState) (global_event : Event)
    (rest : List Event) (device_pixel_ratio : ℚ)
    (h : global_event = Event.windowEvent WindowEvent.closeRequested ∨
      global_event = Event.windowEvent
        (WindowEvent.keyboardInput ⟨some VirtualKeyCode.escape⟩)) :
    runLoop device_size document_id window (global_event :: rest) =
      some (window, iterationActions device_size document_id, true) ∧
    main device_size device_pixel_ratio (global_event :: rest) =
      some (startupActions device_size device_pixel_ratio ++
        iterationActions device_size
          (mainStartup device_size device_pixel_ratio).1 ++
        [Action.rendererDeinit]) := by
  have hiter : ∀ (doc : DocumentId) (w : WindowState),
      runLoop device_size doc w (global_event :: rest) =
        some (w, iterationActions device_size doc, true) := by
    intro doc w
    rcases h with h | h <;> subst h <;> rfl
  refine ⟨hiter document_id window, ?_⟩
  simp [main, hiter]

/-- Witness for C4 on a close request. -/
theorem close_or_escape_terminates_witness :
    runLoop (DeviceIntSize.mk 800 600) 0 initialWindow
      [Event.windowEvent WindowEvent.closeRequested] =
      some (initialWindow, iterationActions (DeviceIntSize.mk 800 600) 0,
        true) ∧
    main (DeviceIntSize.mk 800 600) 1
      [Event.windowEvent WindowEvent.closeRequested] =
      some (startupActions (DeviceIntSize.mk 800 600) 1 ++
        iterationActions (DeviceIntSize.mk 800 600) 0 ++
        [Action.rendererDeinit]) :=
  close_or_escape_terminates (DeviceIntSize.mk 800 600) 0 initialWindow
    (Event.windowEvent WindowEvent.closeRequested) [] 1 (Or.inl rfl)

/-- C5 counterexample: the per-event handling is not total — a keyboard-input
event carrying no virtual keycode panics (models the `unwrap` of a `None`
keycode) instead of taking no action. -/
theorem handleEvent_keycode_none_aborts :
    handleEvent initialWindow
      (Event.windowEvent (WindowEvent.keyboardInput ⟨none⟩)) = none := by
  decide

/-- C5 amended: for every event other than a close request, an escape-key
press, a resume event, and a keyboard input lacking a virtual keycode, the
iteration takes no event-specific action: window visibility and focus are
unchanged and the loop is not set to exit; the resume event always sets the
window visible and focused. The handling is not total: a keyboard input whose
virtual keycode is absent panics. -/
theorem handleEvent_other_events_no_action (window : WindowState)
    (global_event : Event)
    (hclose : global_event ≠ Event.windowEvent WindowEvent.closeRequested)
    (hkey : ∀ input, global_event =
      Event.windowEvent (WindowEvent.keyboardInput input) →
      ∃ code, input.virtual_keycode = some code ∧
        code ≠ VirtualKeyCode.escape)
    (hres : global_event ≠ Event.resumed) :
    handleEvent window global_event = some (window, ControlFlow.wait) ∧
    handleEvent window Event.resumed =
      some (⟨true, true⟩, ControlFlow.wait) := by
  refine ⟨?_, rfl⟩
  cases global_event with
  | windowEvent e =>
    cases e with
    | closeRequested => exact absurd rfl hclose
    | keyboardInput input =>
      obtain ⟨code, hvk, hne⟩ := hkey input rfl
      have hne2 : ¬VirtualKeyCode.escape = code := fun hh => hne hh.symm
      simp [handleEvent, hvk, hne2]
    | otherWindowEvent tag => rfl
  | resumed => exact absurd rfl hres
  | userEvent => rfl
  | otherEvent tag => rfl

/-- Witness for the amended C5 at a non-escape key press on a visible
window. -/
theorem handleEvent_other_events_no_action_witness :
    handleEvent ⟨true, false⟩
      (Event.windowEvent
        (WindowEvent.keyboardInput ⟨some (VirtualKeyCode.otherKey 5)⟩)) =
      some (⟨true, false⟩, ControlFlow.wait) ∧
    handleEvent ⟨true, false⟩ Event.resumed =
      some (⟨true, true⟩, ControlFlow.wait) :=
  handleEvent_other_events_no_action ⟨true, false⟩
    (Event.windowEvent
      (WindowEvent.keyboardInput ⟨some (VirtualKeyCode.otherKey 5)⟩))
    (by decide)
    (fun input h => by
      cases h
      exact ⟨VirtualKeyCode.otherKey 5, rfl, by decide⟩)
    (by decide)

/-- Invariants of a full driver trace, split as startup actions, loop
actions, and an optional trailing deinit. -/
theorem main_trace_props_aux (device_size : DeviceIntSize)
    (device_pixel_ratio : ℚ) (acts tail : List Action)
    (hsub : ∀ a ∈ acts,
      a ∈ iterationActions device_size
        (mainStartup device_size device_pixel_ratio).1)
    (htail : tail = [] ∨ tail = [Action.rendererDeinit]) :
    (((startupActions device_size device_pixel_ratio ++ acts ++ tail).filter
        Action.isAddDocument).length = 1) ∧
    (∀ d ∈ (startupActions device_size device_pixel_ratio ++ acts ++
        tail).flatMap Action.documents,
      d = (mainStartup device_size device_pixel_ratio).1) ∧
    (∀ p ∈ (startupActions device_size device_pixel_ratio ++ acts ++
        tail).flatMap Action.pipelines,
      p = PipelineId.mk 0 0) ∧
    ((mainStartup device_size device_pixel_ratio).2.displayListEpoch =
      some 0) ∧
    ((((startupActions device_size device_pixel_ratio ++ acts ++
          tail).filterMap Action.sentTxn).filter
        (fun txn => txn.display_list.isSome)).length = 1) ∧
    (∃ rest, (startupActions device_size device_pixel_ratio ++ acts ++
        tail).filterMap Action.sentTxn =
        (mainStartup device_size device_pixel_ratio).2 :: rest ∧
      ∀ txn ∈ rest, txn = Transaction.new) := by
  have hpipes : (mainStartup device_size device_pixel_ratio).2.pipelines =
      [PipelineId.mk 0 0, PipelineId.mk 0 0, PipelineId.mk 0 0,
        PipelineId.mk 0 0] := rfl
  have hacts_filter : acts.filter Action.isAddDocument = [] :=
    filter_eq_nil_of_all _ acts fun a ha =>
      (iterationActions_props _ _ a (hsub a ha)).1
  have htail_filter : tail.filter Action.isAddDocument = [] := by
    rcases htail with ht | ht <;> subst ht <;> rfl
  have hfm : (startupActions device_size device_pixel_ratio ++ acts ++
      tail).filterMap Action.sentTxn =
      (mainStartup device_size device_pixel_ratio).2 ::
        (acts.filterMap Action.sentTxn ++ tail.filterMap Action.sentTxn) := by
    simp [List.filterMap_append, startupActions, Action.sentTxn]
  have hrest : ∀ txn ∈ acts.filterMap Action.sentTxn ++
      tail.filterMap Action.sentTxn, txn = Transaction.new := by
    intro txn htxn
    rcases List.mem_append.mp htxn with hm | hm
    · rw [List.mem_filterMap] at hm
      obtain ⟨a, ha, hsent⟩ := hm
      rcases (iterationActions_props _ _ a (hsub a ha)).2.1 with h0 | h0
      · rw [h0] at hsent; cases hsent
      · rw [h0] at hsent
        injection hsent with hs
        exact hs.symm
    · rcases htail with ht | ht <;> subst ht <;>
        simp [Action.sentTxn, List.filterMap] at hm
  refine ⟨?_, ?_, ?_, rfl, ?_, ⟨_, hfm, hrest⟩⟩
  · simp [List.filter_append, hacts_filter, htail_filter, startupActions,
      Action.isAddDocument]
  · intro d hd
    rw [List.mem_flatMap] at hd
    obtain ⟨a, ha, hda⟩ := hd
    rcases List.mem_append.mp ha with ha | htl
    · rcases List.mem_append.mp ha with hs | hacts
      · simp only [startupActions, List.mem_cons, List.not_mem_nil,
          or_false] at hs
        rcases hs with hs | hs
        · subst hs; simp [Action.documents] at hda
        · subst hs
          simp [Action.documents] at hda
          exact hda
      · exact (iterationActions_props _ _ a (hsub a hacts)).2.2.2 d hda
    · rcases htail with ht | ht <;> subst ht
      · simp at htl
      · simp only [List.mem_cons, List.not_mem_nil, or_false] at htl
        subst htl
        simp [Action.documents] at hda
  · intro p hp
    rw [List.mem_flatMap] at hp
    obtain ⟨a, ha, hpa⟩ := hp
    rcases List.mem_append.mp ha with ha | htl
    · rcases List.mem_append.mp ha with hs | hacts
      · simp only [startupActions, List.mem_cons, List.not_mem_nil,
          or_false] at hs
        rcases hs with hs | hs
        · subst hs; simp [Action.pipelines] at hpa
        · subst hs
          simp only [Action.pipelines, hpipes, List.mem_cons,
            List.not_mem_nil, or_false, or_self] at hpa
          exact hpa
      · rw [(iterationActions_props _ _ a (hsub a hacts)).2.2.1] at hpa
        simp at hpa
    · rcases htail with ht | ht <;> subst ht
      · simp at htl
      · simp only [List.mem_cons, List.not_mem_nil, or_false] at htl
        subst htl
        simp [Action.pipelines] at hpa
  · have hsome :
        (mainStartup device_size device_pixel_ratio).2.display_list.isSome =
          true := rfl
    have hnil : (acts.filterMap Action.sentTxn ++
        tail.filterMap Action.sentTxn).filter
        (fun txn => txn.display_list.isSome) = [] :=
      filter_eq_nil_of_all _ _ fun txn htxn => by rw [hrest txn htxn]; rfl
    rw [hfm]
    simp [List.filter_cons, hsome, hnil]

/-- C6: over the whole process run there is exactly one pipeline id, the
constant (0,0) — every pipeline mentioned anywhere in the trace equals it —
exactly one document creation and one document id addressed, the epoch of the
one display list is its initial value 0, exactly one transaction of the whole
run carries a display list (set-display-list is invoked once, at
initialization), and every transaction sent after the initial one is the
empty transaction, so the display list is never rebuilt. -/
theorem trace_single_pipeline_document_epoch (device_size : DeviceIntSize)
    (device_pixel_ratio : ℚ) (events : List Event) (trace : List Action)
    (h : main device_size device_pixel_ratio events = some trace) :
    ((trace.filter Action.isAddDocument).length = 1) ∧
    (∀ d ∈ trace.flatMap Action.documents,
      d = (mainStartup device_size device_pixel_ratio).1) ∧
    (∀ p ∈ trace.flatMap Action.pipelines, p = PipelineId.mk 0 0) ∧
    ((mainStartup device_size device_pixel_ratio).2.displayListEpoch =
      some 0) ∧
    (((trace.filterMap Action.sentTxn).filter
        (fun txn => txn.display_list.isSome)).length = 1) ∧
    (∃ rest, trace.filterMap Action.sentTxn =
        (mainStartup device_size device_pixel_ratio).2 :: rest ∧
      ∀ txn ∈ rest, txn = Transaction.new) := by
  simp only [main] at h
  cases hrl : runLoop device_size
      (mainStartup device_size device_pixel_ratio).1 initialWindow events with
  | none => rw [hrl] at h; cases h
  | some r =>
    obtain ⟨wEnd, acts, terminated⟩ := r
    have hsub := runLoop_actions_subset device_size
      (mainStartup device_size device_pixel_ratio).1 events initialWindow
      wEnd acts terminated hrl
    rw [hrl] at h
    cases terminated with
    | true =>
      dsimp only at h
      injection h with h2
      subst h2
      exact main_trace_props_aux device_size device_pixel_ratio acts
        [Action.rendererDeinit] hsub (Or.inr rfl)
    | false =>
      dsimp only at h
      injection h with h2
      subst h2
      have haux := main_trace_props_aux device_size device_pixel_ratio acts
        [] hsub (Or.inl rfl)
      simpa using haux

/-- Witness for C6 on a 2 by 2 window, scale 1, and a single close-request
event. -/
theorem trace_single_pipeline_document_epoch_witness :
    ((((main (DeviceIntSize.mk 2 2) 1
        [Event.windowEvent WindowEvent.closeRequested]).getD []).filter
        Action.isAddDocument).length = 1) ∧
    (∀ d ∈ ((main (DeviceIntSize.mk 2 2) 1
        [Event.windowEvent WindowEvent.closeRequested]).getD []).flatMap
        Action.documents,
      d = (mainStartup (DeviceIntSize.mk 2 2) 1).1) ∧
    (∀ p ∈ ((main (DeviceIntSize.mk 2 2) 1
        [Event.windowEvent WindowEvent.closeRequested]).getD []).flatMap
        Action.pipelines,
      p = PipelineId.mk 0 0) ∧
    ((mainStartup (DeviceIntSize.mk 2 2) 1).2.displayListEpoch = some 0) ∧
    (((((main (DeviceIntSize.mk 2 2) 1
        [Event.windowEvent WindowEvent.closeRequested]).getD []).filterMap
        Action.sentTxn).filter
        (fun txn => txn.display_list.isSome)).length = 1) ∧
    (∃ rest, ((main (DeviceIntSize.mk 2 2) 1
        [Event.windowEvent WindowEvent.closeRequested]).getD []).filterMap
        Action.sentTxn =
        (mainStartup (DeviceIntSize.mk 2 2) 1).2 :: rest ∧
      ∀ txn ∈ rest, txn = Transaction.new) :=
  trace_single_pipeline_document_epoch (DeviceIntSize.mk 2 2) 1
    [Event.windowEvent WindowEvent.closeRequested]
    ((main (DeviceIntSize.mk 2 2) 1
      [Event.windowEvent WindowEvent.closeRequested]).getD [])
    (by rfl)

end WebrenderDemo
